import Mathlib

/-!
Shallow embedding of `scripts/validate_keymap.py`, a ZMK keymap lint:
it scans keymap text for `&behavior ARG` bindings and validates the
argument of `kp` / `mkp` / `msc` / `mmv` bindings against fixed tables.

The embedding covers the ASCII fragment the tool is used on: Python's
`\w` is modelled as `[A-Za-z0-9_]` and `\s` / `str.strip` whitespace as
the six ASCII whitespace characters.
-/

/-- A single-quote character, used in diagnostic messages. -/
def apos : String := String.singleton (Char.ofNat 39)

/-- Word character of the regex character classes `\w` and `[A-Za-z0-9_]`. -/
def isWordChar (c : Char) : Bool := c.isAlphanum || c = '_'

/-- ASCII whitespace, as matched by the regex class `\s` and stripped by `str.strip()`. -/
def isSpaceChar (c : Char) : Bool :=
  c = ' ' || c = '\t' || c = '\n' || c = '\r' || c = '\x0b' || c = '\x0c'

/-- Python `content.split(chr(10))`: split on newline, keeping empty pieces. -/
def splitNl : List Char → List (List Char)
  | [] => [[]]
  | c :: cs =>
    if c = '\n' then [] :: splitNl cs
    else
      match splitNl cs with
      | r :: rs => (c :: r) :: rs
      | [] => [[c]]

/-- Python `str.strip()` on a line: drop whitespace from both ends. -/
def stripList (l : List Char) : List Char :=
  ((l.dropWhile isSpaceChar).reverse.dropWhile isSpaceChar).reverse

/-- Bool test that `pat` is an initial segment of `l` (Python `str.startswith`). -/
def listStartsWith : List Char → List Char → Bool
  | _, [] => true
  | [], _ :: _ => false
  | c :: cs, p :: ps => c == p && listStartsWith cs ps

/-- Bool test that `pat` occurs contiguously in `l` (Python `pat in s`). -/
def listHasSub (pat : List Char) : List Char → Bool
  | [] => listStartsWith [] pat
  | c :: cs => listStartsWith (c :: cs) pat || listHasSub pat cs

/-- Python `pat in s` on strings. -/
def hasSubstr (pat s : String) : Bool := listHasSub pat.data s.data

/-- The comment skip of `extract_bindings`:
`line.strip().startswith('//') or line.strip().startswith('/*')`. -/
def isCommentLine (l : List Char) : Bool :=
  listStartsWith (stripList l) ['/', '/'] || listStartsWith (stripList l) ['/', '*']

/-- One attempt of the regex `&(\w+)\s+([A-Za-z0-9_]+)` at a position whose
ampersand has just been consumed; `rest` is the text after the ampersand.
Greediness is deterministic here because word and space characters are
disjoint, so each `+` group simply takes its maximal run. Returns the two
capture groups (behavior, argument) on success. -/
def tryMatch (rest : List Char) : Option (List Char × List Char) :=
  let beh := rest.takeWhile isWordChar
  let r1 := rest.dropWhile isWordChar
  let sp := r1.takeWhile isSpaceChar
  let r2 := r1.dropWhile isSpaceChar
  let arg := r2.takeWhile isWordChar
  if beh.isEmpty || sp.isEmpty || arg.isEmpty then none
  else some (beh, arg)

/-- `re.finditer(r'&(\w+)\s+([A-Za-z0-9_]+)', line)`: left-to-right scan
yielding non-overlapping matches. Every match starts at an ampersand and
contains no further ampersand after it, so no later match can start inside
an earlier match's span; resuming the scan at the next character is
therefore equivalent to `finditer`'s resuming at the match end. -/
def findMatches : List Char → List (List Char × List Char)
  | [] => []
  | c :: cs =>
    if c = '&' then
      match tryMatch cs with
      | some m => m :: findMatches cs
      | none => findMatches cs
    else findMatches cs

/-- The per-line body of `extract_bindings`: skip comment lines, otherwise
collect `(line number, behavior, argument)` for each regex match. -/
def lineBindings (i : Nat) (l : List Char) : List (Nat × String × String) :=
  if isCommentLine l then []
  else (findMatches l).map fun p => (i, String.mk p.1, String.mk p.2)

/-- `extract_bindings(content)`: enumerate lines from 1 and concatenate the
per-line bindings in scan order. -/
def extract_bindings (content : String) : List (Nat × String × String) :=
  (List.enumFrom 1 (splitNl content.data)).flatMap fun p => lineBindings p.1 p.2

/-- The `VALID_KEYCODES` table, transcribed entry by entry (as a list; the
Python set is only ever used for membership tests). -/
def VALID_KEYCODES : List String :=
  ((List.range 26).map fun i => String.singleton (Char.ofNat (65 + i))) ++
  ((List.range 10).map fun i => "N" ++ toString i) ++
  ((List.range 10).map fun i => "NUMBER_" ++ toString i) ++
  ((List.range 24).map fun i => "F" ++ toString (i + 1)) ++
  ["LSHFT", "RSHFT", "LSHIFT", "RSHIFT", "LCTRL", "RCTRL", "LALT", "RALT",
   "LGUI", "RGUI", "LMETA", "RMETA", "LWIN", "RWIN", "LCMD", "RCMD",
   "UP", "DOWN", "LEFT", "RIGHT", "HOME", "END", "PG_UP", "PG_DN",
   "PAGE_UP", "PAGE_DOWN", "INS", "INSERT", "DEL", "DELETE",
   "SPACE", "RET", "RETURN", "ENTER", "TAB", "ESC", "ESCAPE",
   "BSPC", "BACKSPACE", "CAPS", "CAPSLOCK", "CAPS_LOCK",
   "PSCRN", "PRINTSCREEN", "PRINT_SCREEN", "SLCK", "SCROLLLOCK", "SCROLL_LOCK",
   "PAUSE_BREAK", "PAUSE",
   "MINUS", "EQUAL", "LBKT", "RBKT", "LBRC", "RBRC",
   "LEFT_BRACKET", "RIGHT_BRACKET", "LEFT_BRACE", "RIGHT_BRACE",
   "BSLH", "BACKSLASH", "SEMI", "SEMICOLON", "SQT", "APOS", "APOSTROPHE",
   "GRAVE", "COMMA", "DOT", "PERIOD", "SLASH", "FSLH",
   "TILDE", "EXCL", "EXCLAMATION", "AT", "AT_SIGN", "HASH", "POUND",
   "DLLR", "DOLLAR", "PRCNT", "PERCENT", "CARET", "AMPS", "AMPERSAND",
   "ASTRK", "ASTERISK", "STAR", "LPAR", "RPAR",
   "LEFT_PARENTHESIS", "RIGHT_PARENTHESIS", "UNDER", "UNDERSCORE",
   "PLUS", "PIPE", "COLON", "DQT", "DOUBLE_QUOTES", "LT", "GT",
   "QMARK", "QUESTION"] ++
  ((List.range 10).map fun i => "KP_N" ++ toString i) ++
  ["KP_PLUS", "KP_MINUS", "KP_MULTIPLY",
   "KP_DIVIDE", "KP_DOT", "KP_ENTER", "KP_EQUAL", "KP_NUMLOCK", "NUMLOCK",
   "C_MUTE", "C_VOL_UP", "C_VOL_DN", "C_VOLUME_UP", "C_VOLUME_DOWN",
   "C_PP", "C_PLAY_PAUSE", "C_PLAY", "C_PAUSE", "C_STOP",
   "C_NEXT", "C_PREV", "C_PREVIOUS", "C_FF", "C_RW", "C_FAST_FORWARD", "C_REWIND",
   "C_BRI_UP", "C_BRI_DN", "C_BRIGHTNESS_INC", "C_BRIGHTNESS_DEC",
   "C_AL_CALC", "C_AL_WWW", "C_AL_MAIL", "C_AL_FILES",
   "C_AC_SEARCH", "C_AC_HOME", "C_AC_BACK", "C_AC_FORWARD", "C_AC_REFRESH",
   "SCRL_UP", "SCRL_DOWN", "SCRL_LEFT", "SCRL_RIGHT",
   "MOVE_UP", "MOVE_DOWN", "MOVE_LEFT", "MOVE_RIGHT",
   "LCLK", "RCLK", "MCLK", "MB1", "MB2", "MB3", "MB4", "MB5",
   "BT_CLR", "BT_CLR_ALL", "BT_NXT", "BT_PRV"] ++
  ((List.range 5).map fun i => "BT_SEL " ++ toString i) ++
  ["OUT_USB", "OUT_BLE", "OUT_TOG",
   "C_PWR", "C_POWER", "C_SLEEP", "C_AL_LOCK",
   "RESET", "BOOTLOADER"]

/-- The `VALID_BEHAVIORS` table (inert behavior names; never consulted by
the validator, kept as documentation). -/
def VALID_BEHAVIORS : List String :=
  ["trans", "none", "kp", "mo", "lt", "mt", "sk", "sl", "tog", "to",
   "bt", "mkp", "msc", "mmv", "mms", "out", "rgb_ug", "ext_power",
   "caps_word", "key_repeat", "reset", "bootloader", "sys_reset"]

/-- `valid_mkp` mouse-button codes. -/
def valid_mkp : List String :=
  ["LCLK", "RCLK", "MCLK", "MB1", "MB2", "MB3", "MB4", "MB5"]

/-- `valid_msc` scroll codes. -/
def valid_msc : List String :=
  ["SCRL_UP", "SCRL_DOWN", "SCRL_LEFT", "SCRL_RIGHT"]

/-- `valid_mmv` mouse-move codes. -/
def valid_mmv : List String :=
  ["MOVE_UP", "MOVE_DOWN", "MOVE_LEFT", "MOVE_RIGHT"]

/-- Python string comparison (`<=` by code points), as `sorted` uses. -/
def strLe (a b : String) : Bool := !(compare a b == Ordering.gt)

/-- Insert into a sorted list, keeping it sorted under `strLe`. -/
def insertSorted (x : String) : List String → List String
  | [] => [x]
  | y :: ys => if strLe x y then x :: y :: ys else y :: insertSorted x ys

/-- Python `sorted` on a list of strings (insertion sort; the inputs here
are duplicate-free, so stability is irrelevant). -/
def sortStrs : List String → List String
  | [] => []
  | x :: xs => insertSorted x (sortStrs xs)

/-- The `', '.join(sorted(valid_mkp))` fragment of the mouse-button message. -/
def mkpValidStr : String := String.intercalate ", " (sortStrs valid_mkp)

/-- The `', '.join(sorted(valid_msc))` fragment of the scroll message. -/
def mscValidStr : String := String.intercalate ", " (sortStrs valid_msc)

/-- The `', '.join(sorted(valid_mmv))` fragment of the mouse-move message. -/
def mmvValidStr : String := String.intercalate ", " (sortStrs valid_mmv)

/-- The body of the validation loop of `validate_keymap` for one binding
triple: the `if behavior == ...` dispatch, returning the (zero or one)
error strings the iteration appends. -/
def validateBinding : Nat × String × String → List String
  | (line_num, behavior, arg) =>
    if behavior = "kp" then
      if !(VALID_KEYCODES.contains arg) then
        let suggestions :=
          (if hasSubstr "VOL_MUTE" arg then ["C_MUTE"] else []) ++
          (if hasSubstr "VOL_DOWN" arg then ["C_VOL_DN"] else [])
        let msg := "Line " ++ toString line_num ++ ": Unknown keycode " ++ apos ++ arg ++ apos
        let msg :=
          if !suggestions.isEmpty then
            msg ++ " (did you mean: " ++ String.intercalate ", " suggestions ++ "?)"
          else msg
        [msg]
      else []
    else if behavior = "mkp" then
      if !(valid_mkp.contains arg) then
        ["Line " ++ toString line_num ++ ": Invalid mouse button " ++ apos ++ arg ++ apos ++
         " (valid: " ++ mkpValidStr ++ ")"]
      else []
    else if behavior = "msc" then
      if !(valid_msc.contains arg) then
        ["Line " ++ toString line_num ++ ": Invalid scroll code " ++ apos ++ arg ++ apos ++
         " (valid: " ++ mscValidStr ++ ")"]
      else []
    else if behavior = "mmv" then
      if !(valid_mmv.contains arg) then
        ["Line " ++ toString line_num ++ ": Invalid mouse move " ++ apos ++ arg ++ apos ++
         " (valid: " ++ mmvValidStr ++ ")"]
      else []
    else []

/-- The validation loop: accumulate the per-binding errors in scan order. -/
def validateBindings : List (Nat × String × String) → List String
  | [] => []
  | b :: rest => validateBinding b ++ validateBindings rest

/-- `validate_keymap` after the file read: extract bindings from the
content, then run the validation loop. -/
def validate_keymap (content : String) : List String :=
  validateBindings (extract_bindings content)

/-- `validate_keymap(filepath)` with the filesystem made explicit: a map
from path to file content (`none` = file absent); `read_text` then
validate. -/
def validate_file (fs : String → Option String) (path : String) :
    Option (List String) :=
  (fs path).map validate_keymap

/-- The reporting tail of `main` after a successful read: the printed
lines and the exit status. -/
def mainReport (content : String) : List String × Nat :=
  let errors := validate_keymap content
  if !errors.isEmpty then
    ("✗ Keymap validation failed:" :: errors.map (fun e => "  " ++ e), 1)
  else
    (["✓ Keymap keycodes are valid"], 0)

/-- `main`, with `sys.argv` (program name included) and the filesystem
explicit: returns the printed lines and the exit status. -/
def mainRun (argv : List String) (fs : String → Option String) :
    List String × Nat :=
  match argv with
  | _ :: path :: _ =>
    match fs path with
    | none => (["Error: File not found: " ++ path], 1)
    | some content => mainReport content
  | _ => (["Usage: validate_keymap.py <keymap_file>"], 1)

/-- Diagnostic prescribed by the spec for a `kp` argument missing from the
Keycode Set, written from the spec's words: the base message, then a
single parenthetical suffix comma-joining the matched suggestion
heuristics (`VOL_MUTE` ↦ `C_MUTE`, `VOL_DOWN` ↦ `C_VOL_DN`), omitted when
neither heuristic matches. -/
def kpDiagnosticSpec (n : Nat) (arg : String) : String :=
  let base := "Line " ++ toString n ++ ": Unknown keycode " ++ apos ++ arg ++ apos
  let sugg :=
    (if hasSubstr "VOL_MUTE" arg then ["C_MUTE"] else []) ++
    (if hasSubstr "VOL_DOWN" arg then ["C_VOL_DN"] else [])
  if sugg.isEmpty then base
  else base ++ " (did you mean: " ++ String.intercalate ", " sugg ++ "?)"

/-- Helper: a successful regex attempt returns a nonempty argument made of
word characters only. -/
theorem tryMatch_wordlike {rest b a : List Char}
    (h : tryMatch rest = some (b, a)) :
    a ≠ [] ∧ ∀ c ∈ a, isWordChar c = true := by
  simp only [tryMatch] at h
  split at h
  · exact absurd h (by simp)
  · rename_i hcond
    rw [Option.some.injEq, Prod.mk.injEq] at h
    obtain ⟨hb, ha⟩ := h
    subst ha
    refine ⟨?_, fun c hc => List.mem_takeWhile_imp hc⟩
    intro hnil
    simp [hnil] at hcond


/-- Helper: every argument yielded by the regex scan of a line is a
nonempty all-word-character token. -/
theorem findMatches_wordlike :
    ∀ (l : List Char) (b a : List Char), (b, a) ∈ findMatches l →
      a ≠ [] ∧ ∀ c ∈ a, isWordChar c = true := by
  intro l
  induction l with
  | nil => intro b a h; simp [findMatches] at h
  | cons c cs ih =>
    intro b a h
    simp only [findMatches] at h
    split at h
    · cases hm : tryMatch cs with
      | some m =>
        rw [hm] at h
        rcases List.mem_cons.mp h with h1 | h1
        · exact tryMatch_wordlike (h1 ▸ hm)
        · exact ih b a h1
      | none => rw [hm] at h; exact ih b a h
    · exact ih b a h

/-- Claim C1: a `kp` binding produces a diagnostic exactly when its
argument is not in the Keycode Set; the diagnostic is
`Line n: Unknown keycode 'arg'` with the `VOL_MUTE` / `VOL_DOWN`
suggestion heuristics comma-joined in one parenthetical suffix, and no
suffix when neither matches (`kpDiagnosticSpec`); in particular the input
`&kp C_VOL_MUTE` yields exactly the spec's example diagnostic. -/
theorem kp_validation_spec :
    (∀ (n : Nat) (arg : String),
        validateBinding (n, "kp", arg) =
          if VALID_KEYCODES.contains arg then []
          else [kpDiagnosticSpec n arg]) ∧
    validate_keymap "&kp C_VOL_MUTE" =
      ["Line 1: Unknown keycode " ++ apos ++ "C_VOL_MUTE" ++ apos ++
       " (did you mean: C_MUTE?)"] := by
  refine ⟨?_, by decide⟩
  intro n arg
  simp only [validateBinding, kpDiagnosticSpec]
  cases h : VALID_KEYCODES.contains arg <;>
    cases hm : hasSubstr "VOL_MUTE" arg <;>
    cases hd : hasSubstr "VOL_DOWN" arg <;>
    simp [h, hm, hd]

/-- Claim C2: an `mkp` / `msc` / `mmv` binding produces a diagnostic
exactly when its argument is outside the respective fixed set, and the
diagnostic lists exactly that set, alphabetically sorted and
comma-joined; in particular `&mkp MB9` yields the spec's example
diagnostic. -/
theorem mouse_validation_spec :
    (∀ (n : Nat) (arg : String),
        validateBinding (n, "mkp", arg) =
          if valid_mkp.contains arg then []
          else ["Line " ++ toString n ++ ": Invalid mouse button " ++
                apos ++ arg ++ apos ++ " (valid: " ++
                "LCLK, MB1, MB2, MB3, MB4, MB5, MCLK, RCLK" ++ ")"]) ∧
    (∀ (n : Nat) (arg : String),
        validateBinding (n, "msc", arg) =
          if valid_msc.contains arg then []
          else ["Line " ++ toString n ++ ": Invalid scroll code " ++
                apos ++ arg ++ apos ++ " (valid: " ++
                "SCRL_DOWN, SCRL_LEFT, SCRL_RIGHT, SCRL_UP" ++ ")"]) ∧
    (∀ (n : Nat) (arg : String),
        validateBinding (n, "mmv", arg) =
          if valid_mmv.contains arg then []
          else ["Line " ++ toString n ++ ": Invalid mouse move " ++
                apos ++ arg ++ apos ++ " (valid: " ++
                "MOVE_DOWN, MOVE_LEFT, MOVE_RIGHT, MOVE_UP" ++ ")"]) ∧
    validate_keymap "&mkp MB9" =
      ["Line 1: Invalid mouse button " ++ apos ++ "MB9" ++ apos ++
       " (valid: LCLK, MB1, MB2, MB3, MB4, MB5, MCLK, RCLK)"] := by
  have h1 : mkpValidStr = "LCLK, MB1, MB2, MB3, MB4, MB5, MCLK, RCLK" := by decide
  have h2 : mscValidStr = "SCRL_DOWN, SCRL_LEFT, SCRL_RIGHT, SCRL_UP" := by decide
  have h3 : mmvValidStr = "MOVE_DOWN, MOVE_LEFT, MOVE_RIGHT, MOVE_UP" := by decide
  refine ⟨?_, ?_, ?_, by decide⟩ <;>
    · intro n arg
      simp only [validateBinding, h1, h2, h3]
      cases h : valid_mkp.contains arg <;>
        cases h' : valid_msc.contains arg <;>
        cases h'' : valid_mmv.contains arg <;>
        simp [h, h', h'', h1, h2, h3]

/-- Claim C3: a line whose trimmed content starts with `//` or `/*` yields
no bindings, whatever `&behavior ARG` patterns it contains. -/
theorem comment_line_skip (i : Nat) (l : List Char)
    (h : isCommentLine l = true) : lineBindings i l = [] := by
  simp [lineBindings, h]

theorem comment_line_skip_witness :
    isCommentLine ("// &kp ZZZZ".data) = true ∧
      lineBindings 1 ("// &kp ZZZZ".data) = [] :=
  ⟨by decide, comment_line_skip 1 ("// &kp ZZZZ".data) (by decide)⟩

/-- Claim C4: after a successful read, the program exits 1 printing the
failure header and one indented line per diagnostic exactly when
validation returns errors, and exits 0 printing the single success line
when it returns none. -/
theorem report_exit_spec (content : String) :
    mainReport content =
      if validate_keymap content = [] then
        (["✓ Keymap keycodes are valid"], 0)
      else
        ("✗ Keymap validation failed:" ::
           (validate_keymap content).map (fun e => "  " ++ e), 1) := by
  simp only [mainReport]
  cases h : validate_keymap content <;> simp [h]

/-- Claim C6: a binding whose behavior is none of `kp`, `mkp`, `msc`,
`mmv` — inert or entirely unrecognized — never produces a diagnostic. -/
theorem other_behaviors_silent (n : Nat) (behavior arg : String)
    (h : behavior ∉ (["kp", "mkp", "msc", "mmv"] : List String)) :
    validateBinding (n, behavior, arg) = [] := by
  simp only [List.mem_cons, List.not_mem_nil, or_false, not_or] at h
  obtain ⟨h1, h2, h3, h4⟩ := h
  simp [validateBinding, h1, h2, h3, h4]

theorem other_behaviors_silent_witness :
    validateBinding (3, "trans", "NOT_A_KEYCODE") = [] ∧
      validateBinding (7, "zzz_unknown", "MB9") = [] :=
  ⟨other_behaviors_silent 3 "trans" "NOT_A_KEYCODE" (by decide),
   other_behaviors_silent 7 "zzz_unknown" "MB9" (by decide)⟩

/-- Claim C8: validation is deterministic — it depends only on the file
content, so two runs over identical content give identical diagnostic
lists. -/
theorem validator_deterministic (fs1 fs2 : String → Option String)
    (p1 p2 : String) (h : fs1 p1 = fs2 p2) :
    validate_file fs1 p1 = validate_file fs2 p2 := by
  simp [validate_file, h]

theorem validator_deterministic_witness :
    validate_file (fun _ => some "&kp C_VOL_MUTE") "a.keymap" =
      validate_file (fun _ => some "&kp C_VOL_MUTE") "b.keymap" :=
  validator_deterministic (fun _ => some "&kp C_VOL_MUTE")
    (fun _ => some "&kp C_VOL_MUTE") "a.keymap" "b.keymap" rfl

/-- Claim C5: diagnostics come out in the scan order of the bindings (the
validation loop is an append homomorphism) and identical errors are not
deduplicated — k occurrences of one binding give the k-fold repetition of
its diagnostic, as on the concrete line `&kp ZZZZ &kp ZZZZ`. -/
theorem diagnostic_order_spec :
    (∀ (xs ys : List (Nat × String × String)),
        validateBindings (xs ++ ys) =
          validateBindings xs ++ validateBindings ys) ∧
    (∀ (b : Nat × String × String) (k : Nat),
        validateBindings (List.replicate k b) =
          (List.replicate k (validateBinding b)).flatten) ∧
    validate_keymap "&kp ZZZZ &kp ZZZZ" =
      ["Line 1: Unknown keycode " ++ apos ++ "ZZZZ" ++ apos,
       "Line 1: Unknown keycode " ++ apos ++ "ZZZZ" ++ apos] := by
  refine ⟨?_, ?_, by decide⟩
  · intro xs ys
    induction xs with
    | nil => simp [validateBindings]
    | cons b bs ih => simp [validateBindings, ih]
  · intro b k
    induction k with
    | zero => simp [validateBindings]
    | succ k ih => simp [validateBindings, List.replicate_succ, ih]

/-- Claim C7: with no path argument the program prints the usage line and
exits 1 without consulting the filesystem at all; with a nonexistent path
it prints the file-not-found message naming the path and exits 1. -/
theorem cli_errors_spec :
    (∀ (argv : List String) (fs g : String → Option String),
        argv.length < 2 →
          mainRun argv fs = (["Usage: validate_keymap.py <keymap_file>"], 1) ∧
          mainRun argv fs = mainRun argv g) ∧
    (∀ (a0 path : String) (rest : List String)
        (fs : String → Option String), fs path = none →
          mainRun (a0 :: path :: rest) fs =
            (["Error: File not found: " ++ path], 1)) := by
  constructor
  · intro argv fs g h
    match argv with
    | [] => exact ⟨rfl, rfl⟩
    | [a] => exact ⟨rfl, rfl⟩
    | a :: b :: t => exact absurd h (by simp)
  · intro a0 path rest fs h
    simp [mainRun, h]

theorem cli_errors_spec_witness :
    mainRun ["validate_keymap.py"] (fun _ => some "&kp A") =
      (["Usage: validate_keymap.py <keymap_file>"], 1) ∧
    mainRun ["validate_keymap.py", "missing.keymap"] (fun _ => none) =
      (["Error: File not found: missing.keymap"], 1) :=
  ⟨(cli_errors_spec.1 ["validate_keymap.py"] (fun _ => some "&kp A")
      (fun _ => none) (by decide)).1,
   cli_errors_spec.2 "validate_keymap.py" "missing.keymap" []
     (fun _ => none) rfl⟩

/-- Claim C9: every extracted argument token is a nonempty string of
letters, digits and underscores, so it can never equal one of the five
space-containing `BT_SEL i` entries of the Keycode Set. -/
theorem extracted_arg_wordlike (content : String) (i : Nat) (b a : String)
    (h : (i, b, a) ∈ extract_bindings content) :
    a.data ≠ [] ∧ (∀ c ∈ a.data, isWordChar c = true) ∧
      a ∉ (["BT_SEL 0", "BT_SEL 1", "BT_SEL 2", "BT_SEL 3",
            "BT_SEL 4"] : List String) := by
  obtain ⟨p, hp, hmem⟩ := List.mem_flatMap.mp h
  simp only [lineBindings] at hmem
  split at hmem
  · simp at hmem
  · obtain ⟨q, hq, heq⟩ := List.mem_map.mp hmem
    rw [Prod.mk.injEq, Prod.mk.injEq] at heq
    obtain ⟨-, -, ha⟩ := heq
    have hw := findMatches_wordlike p.2 q.1 q.2 hq
    have hdata : a.data = q.2 := by rw [← ha]
    refine ⟨by rw [hdata]; exact hw.1, by rw [hdata]; exact hw.2, ?_⟩
    intro hbt
    have hsp : Char.ofNat 32 ∈ a.data := by
      rcases List.mem_cons.mp hbt with h1 | h1
      · rw [h1]; decide
      rcases List.mem_cons.mp h1 with h2 | h2
      · rw [h2]; decide
      rcases List.mem_cons.mp h2 with h3 | h3
      · rw [h3]; decide
      rcases List.mem_cons.mp h3 with h4 | h4
      · rw [h4]; decide
      rcases List.mem_cons.mp h4 with h5 | h5
      · rw [h5]; decide
      · exact absurd h5 (List.not_mem_nil _)
    have := (hdata ▸ hw.2) (Char.ofNat 32) (hdata ▸ hsp)
    exact absurd this (by decide)

theorem extracted_arg_wordlike_witness :
    (1, "kp", "A") ∈ extract_bindings "&kp A" ∧
      ("A" : String).data ≠ [] :=
  ⟨by decide, (extracted_arg_wordlike "&kp A" 1 "kp" "A" (by decide)).1⟩

/-- Claim C10: comment markers only matter at line start — on a line whose
trimmed content does not start with `//` or `/*`, every regex match on the
whole line is extracted, including matches after a mid-line marker; in
particular `&kp A // &kp ZZZZ` yields both bindings and a diagnostic for
`ZZZZ`. -/
theorem midline_comment_no_skip :
    (∀ (i : Nat) (l : List Char), isCommentLine l = false →
        lineBindings i l =
          (findMatches l).map fun p => (i, String.mk p.1, String.mk p.2)) ∧
    extract_bindings "&kp A // &kp ZZZZ" =
      [(1, "kp", "A"), (1, "kp", "ZZZZ")] ∧
    validate_keymap "&kp A // &kp ZZZZ" =
      ["Line 1: Unknown keycode " ++ apos ++ "ZZZZ" ++ apos] := by
  refine ⟨?_, by decide, by decide⟩
  intro i l h
  simp [lineBindings, h]

theorem midline_comment_no_skip_witness :
    lineBindings 1 ("&kp A // &kp ZZZZ".data) =
      (findMatches ("&kp A // &kp ZZZZ".data)).map
        fun p => (1, String.mk p.1, String.mk p.2) :=
  midline_comment_no_skip.1 1 ("&kp A // &kp ZZZZ".data) (by decide)
